import Mathlib

/-!
Verification of the spatial-indexing core of `OcTreeBase` (octomap):
a shallow embedding of `src/octomap/OcTreeBase.hxx` with the coordinate
codec (`genKey`/`genVal`), octant addressing (`genPos`), point lookup
(`search`), the Amanatides-Woo ray walk (`computeRay`) and voxel
enumeration (`getVoxelsRecurs`).

C++ `double` arithmetic is idealized as real arithmetic; the 16-bit
`unsigned short` voxel indices are modelled as `Nat` with explicit
wrap-around modulo 65536 where the source performs `unsigned short`
arithmetic; fallible functions return `Option`/flags exactly where the
source reports failure through a `bool` return.
-/

/-- `tree_depth` field, set to 16 in the `OcTreeBase` constructor. -/
def tree_depth : Nat := 16

/-- `tree_max_val` field, set to 32768 in the `OcTreeBase` constructor. -/
def tree_max_val : Nat := 32768

/-- `resolution_factor = 1. / resolution`, from `setResolution`. -/
noncomputable def resolution_factor (resolution : ℝ) : ℝ := 1 / resolution

/-- Modelled from the spec: the external `point3d` vector type
(per-axis component access, subtraction, unit-vector normalization,
Euclidean norm). -/
structure point3d where
  x : ℝ
  y : ℝ
  z : ℝ

/-- Modelled from the spec: per-axis component access `p(i)` of `point3d`. -/
noncomputable def point3d.nth (p : point3d) : Fin 3 → ℝ :=
  fun i => if i = 0 then p.x else if i = 1 then p.y else p.z

/-- Modelled from the spec: componentwise subtraction of `point3d`. -/
noncomputable def psub (a b : point3d) : point3d :=
  ⟨a.x - b.x, a.y - b.y, a.z - b.z⟩

/-- Modelled from the spec: Euclidean norm `norm2` of `point3d`. -/
noncomputable def norm2 (p : point3d) : ℝ :=
  Real.sqrt (p.x ^ 2 + p.y ^ 2 + p.z ^ 2)

/-- Modelled from the spec: unit-vector normalization `unit` of `point3d`. -/
noncomputable def unit (p : point3d) : point3d :=
  ⟨p.x / norm2 p, p.y / norm2 p, p.z / norm2 p⟩

/-- Equality of points is classically decidable (used when filtering
emitted volume records). -/
noncomputable instance : DecidableEq point3d := Classical.decEq point3d

/-- A length-3 array, as used for `unsigned short key[3]`, `double tMax[3]`
and friends in the source. -/
def vec3 {α : Type} (a b c : α) : Fin 3 → α :=
  fun i => if i = 0 then a else if i = 1 then b else c

/-- `OcTreeBase::genKey` (OcTreeBase.hxx:60-73): scale a metric coordinate
by `resolution_factor`, shift by `tree_max_val`, and accept the result as a
key iff it lies strictly inside `(0, 2*tree_max_val)`. -/
noncomputable def genKey (resolution v : ℝ) : Option Nat :=
  let scaled_val : ℤ := ⌊resolution_factor resolution * v⌋ + (tree_max_val : ℤ)
  if 0 < scaled_val ∧ scaled_val < 2 * (tree_max_val : ℤ) then
    some scaled_val.toNat
  else
    none

/-- `OcTreeBase::genVal` (OcTreeBase.hxx:87-97): the output parameter is
first overwritten with `0.0`; keys at or beyond `2*tree_max_val` are
rejected, every other key decodes to the center of its voxel.  `prior`
is the caller's previous content of the by-reference output parameter. -/
noncomputable def genVal (resolution : ℝ) (key : Nat) (prior : ℝ) : Bool × ℝ :=
  let val : ℝ := 0
  if 2 * tree_max_val ≤ key then
    (false, val)
  else
    (true, (((key : ℝ) - (tree_max_val : ℝ)) + 0.5) * resolution)

/-- `OcTreeBase::genPos` (OcTreeBase.hxx:101-108): pack bit `i` of the three
keys into an octant index `0..7`. -/
def genPos (key : Fin 3 → Nat) (i : Nat) : Nat :=
  (if key 0 &&& (1 <<< i) ≠ 0 then 1 else 0) +
  (if key 1 &&& (1 <<< i) ≠ 0 then 2 else 0) +
  (if key 2 &&& (1 <<< i) ≠ 0 then 4 else 0)

/-- Modelled from the spec: the external `NODE` entity — each node
exclusively owns up to 8 optional children (octants 0-7). -/
inductive ONode where
  | mk (children : Fin 8 → Option ONode)

/-- The 8 child slots of a node. -/
def ONode.children : ONode → Fin 8 → Option ONode
  | .mk cs => cs

/-- Modelled from the spec: `NODE::childExists(octant) -> bool`. -/
def childExists (n : ONode) (pos : Nat) : Bool :=
  if h : pos < 8 then (n.children ⟨pos, h⟩).isSome else false

/-- Modelled from the spec: `NODE::hasChildren() -> bool`. -/
def hasChildren (n : ONode) : Bool :=
  decide (∃ i : Fin 8, (n.children i).isSome = true)

/-- Modelled from the spec: `NODE::getChild(octant)` — a borrowed reference,
undefined if the child does not exist (a childless dummy is returned there). -/
def getChild (n : ONode) (pos : Nat) : ONode :=
  if h : pos < 8 then (n.children ⟨pos, h⟩).getD (ONode.mk fun _ => none)
  else ONode.mk fun _ => none

/-- The descent loop of `OcTreeBase::search` (OcTreeBase.hxx:129-150):
`searchDescend key i cur` processes levels `i-1` down to `0` starting at
`cur`; with `i = 0` the loop is exhausted and returns the node reached. -/
def searchDescend (key : Fin 3 → Nat) : Nat → ONode → Option ONode
  | 0, cur => some cur
  | i + 1, cur =>
    let pos := genPos key i
    if childExists cur pos then
      searchDescend key i (getChild cur pos)
    else if hasChildren cur = false then
      some cur
    else
      none

/-- `OcTreeBase::search` (OcTreeBase.hxx:112-151): encode the point on all
three axes (absent on any codec failure), then descend from the root
through levels `tree_depth-1 .. 0`. -/
noncomputable def search (resolution : ℝ) (root : ONode) (p : point3d) : Option ONode :=
  match genKey resolution (p.nth 0), genKey resolution (p.nth 1),
        genKey resolution (p.nth 2) with
  | some k0, some k1, some k2 => searchDescend (vec3 k0 k1 k2) tree_depth root
  | _, _, _ => none

/-- The failure modes of `computeRay` as reported through its `cerr`
messages and `return false` paths. -/
inductive RayError where
  | originOOB (axis : Fin 3)
  | endOOB (axis : Fin 3)
  | boundary (axis : Fin 3)
  | genValFail
deriving DecidableEq

/-- The minimum-`tMax` axis selection of `computeRay`
(OcTreeBase.hxx:217-224), verbatim nested conditionals. -/
noncomputable def selectAxis (t0 t1 t2 : ℝ) : Fin 3 :=
  if t0 < t1 then
    (if t0 < t2 then 0 else 2)
  else
    (if t1 < t2 then 1 else 2)

/-- Step direction from the sign of a direction component
(OcTreeBase.hxx:188-190). -/
noncomputable def stepOf (d : ℝ) : ℤ :=
  if 0 < d then 1 else if d < 0 then -1 else 0

/-- Initial `tMax[i]` (OcTreeBase.hxx:192-202): parametric distance from the
origin to the near voxel border in the stepping direction, or the `1e6`
sentinel for a zero direction component. -/
noncomputable def tMaxInit (resolution o d : ℝ) (idx : Nat) : ℝ :=
  let voxelBorder :=
    ((idx : ℝ) - (tree_max_val : ℝ)) * resolution +
      (if 0 < stepOf d then resolution else 0)
  if d ≠ 0 then (voxelBorder - o) / d else 1000000

/-- Initial `tDelta[i]` (OcTreeBase.hxx:197-201): parametric span of one
voxel along the axis, or the `1e6` sentinel. -/
noncomputable def tDeltaInit (resolution d : ℝ) : ℝ :=
  if d ≠ 0 then resolution / |d| else 1000000

/-- The incremental phase of `computeRay` (OcTreeBase.hxx:213-255), with an
explicit fuel parameter for the `while` loop (`none` = fuel exhausted, a
model artifact).  `voxelIdx[i] += step[i]` is `unsigned short` arithmetic,
hence the wrap modulo 65536; the subsequent range check compares the
already-wrapped value exactly as the compiled source does. -/
noncomputable def rayLoop (resolution : ℝ) (origin : point3d) (maxLength : ℝ)
    (step : Fin 3 → ℤ) (tDelta : Fin 3 → ℝ) :
    Nat → (Fin 3 → Nat) → (Fin 3 → ℝ) → List point3d →
    Option (Option RayError × List point3d)
  | 0, _, _, _ => none
  | fuel + 1, voxelIdx, tMax, ray =>
    let i := selectAxis (tMax 0) (tMax 1) (tMax 2)
    let newIdx : Nat := (((voxelIdx i : ℤ) + step i) % 65536).toNat
    let voxelIdx2 := Function.update voxelIdx i newIdx
    if 0 ≤ (newIdx : ℤ) ∧ newIdx < 2 * tree_max_val then
      let tMax2 := Function.update tMax i (tMax i + tDelta i)
      let val : Fin 3 → Bool × ℝ := fun j => genVal resolution (voxelIdx2 j) 0
      if (val 0).1 = true ∧ (val 1).1 = true ∧ (val 2).1 = true then
        let value : point3d := ⟨(val 0).2, (val 1).2, (val 2).2⟩
        if norm2 (psub value origin) > maxLength then
          some (none, ray)
        else
          rayLoop resolution origin maxLength step tDelta fuel voxelIdx2 tMax2
            (ray ++ [value])
      else
        some (some RayError.genValFail, ray)
    else
      some (some (RayError.boundary i), ray)

/-- `OcTreeBase::computeRay` (OcTreeBase.hxx:154-258): clear the output,
compute unit direction and total length, encode origin and end per axis
(failing out of bounds), return the empty walk when both ends share a
voxel, otherwise run the incremental phase.  The second component of a
`some` result is the content of the caller's `_ray` vector on return. -/
noncomputable def computeRay (resolution : ℝ) (fuel : Nat) (origin endp : point3d) :
    Option (Option RayError × List point3d) :=
  let direction := unit (psub endp origin)
  let maxLength := norm2 (psub endp origin)
  match genKey resolution (origin.nth 0) with
  | none => some (some (RayError.originOOB 0), [])
  | some v0 =>
    match genKey resolution (endp.nth 0) with
    | none => some (some (RayError.endOOB 0), [])
    | some e0 =>
      match genKey resolution (origin.nth 1) with
      | none => some (some (RayError.originOOB 1), [])
      | some v1 =>
        match genKey resolution (endp.nth 1) with
        | none => some (some (RayError.endOOB 1), [])
        | some e1 =>
          match genKey resolution (origin.nth 2) with
          | none => some (some (RayError.originOOB 2), [])
          | some v2 =>
            match genKey resolution (endp.nth 2) with
            | none => some (some (RayError.endOOB 2), [])
            | some e2 =>
              let voxelIdx : Fin 3 → Nat := vec3 v0 v1 v2
              let endIdx : Fin 3 → Nat := vec3 e0 e1 e2
              let step : Fin 3 → ℤ := fun i => stepOf (direction.nth i)
              let tMax : Fin 3 → ℝ := fun i =>
                tMaxInit resolution (origin.nth i) (direction.nth i) (voxelIdx i)
              let tDelta : Fin 3 → ℝ := fun i =>
                tDeltaInit resolution (direction.nth i)
              if voxelIdx 0 = endIdx 0 ∧ voxelIdx 1 = endIdx 1 ∧ voxelIdx 2 = endIdx 2 then
                some (none, [])
              else
                rayLoop resolution origin maxLength step tDelta fuel voxelIdx tMax []

/-- `tree_center` as set by `setResolution` (OcTreeBase.hxx:55): the metric
coordinate of key value `tree_max_val` on every axis. -/
noncomputable def tree_center (resolution : ℝ) : point3d :=
  ⟨(tree_max_val : ℝ) / resolution_factor resolution,
   (tree_max_val : ℝ) / resolution_factor resolution,
   (tree_max_val : ℝ) / resolution_factor resolution⟩

/-- A volume record `OcTreeVolume`: metric center and edge length
(a typedef for a pair in the source). -/
abbrev OcTreeVolume : Type := point3d × ℝ

/-- The per-octant `search_center` computation shared by the enumeration
recursions (OcTreeBase.hxx:335-356): offset the parent center by
`tree_center(0) / 2^(depth+1)` along each axis according to the bits of
the octant index. -/
noncomputable def childCenter (resolution : ℝ) (parent_center : point3d)
    (depth : Nat) (i : Nat) : point3d :=
  let center_offset := (tree_center resolution).x / 2 ^ (depth + 1)
  ⟨if i &&& 1 ≠ 0 then parent_center.x + center_offset else parent_center.x - center_offset,
   if i &&& 2 ≠ 0 then parent_center.y + center_offset else parent_center.y - center_offset,
   if i &&& 4 ≠ 0 then parent_center.z + center_offset else parent_center.z - center_offset⟩

/-- The `voxelSize` emitted by the enumeration recursions
(OcTreeBase.hxx:361): `resolution * 2^(tree_depth - depth)`. -/
noncomputable def voxelSize (resolution : ℝ) (depth : Nat) : ℝ :=
  resolution * 2 ^ (tree_depth - depth)

/-- `OcTreeBase::getVoxelsRecurs` (OcTreeBase.hxx:326-368): at an internal
node strictly above the cutoff, recurse into existing octants and emit one
volume (the node's own volume) per missing octant; nothing is emitted
otherwise (the lowest level is not drawn). -/
noncomputable def getVoxelsRecurs (resolution : ℝ) (max_depth : Nat) (node : ONode)
    (depth : Nat) (parent_center : point3d) : List OcTreeVolume :=
  if h1 : depth ≤ max_depth then
    if h2 : hasChildren node = true ∧ depth ≠ max_depth then
      (List.range 8).flatMap fun i =>
        if childExists node i then
          getVoxelsRecurs resolution max_depth (getChild node i) (depth + 1)
            (childCenter resolution parent_center depth i)
        else
          [(psub parent_center (tree_center resolution), voxelSize resolution depth)]
    else
      []
  else
    []
termination_by max_depth - depth
decreasing_by omega

/-- `OcTreeBase::getVoxels` (OcTreeBase.hxx:314-322): `max_depth = 0` means
the full `tree_depth`; start the recursion at the root, depth 0, centered
at `tree_center`. -/
noncomputable def getVoxels (resolution : ℝ) (root : ONode) (max_depth : Nat) :
    List OcTreeVolume :=
  let md := if max_depth = 0 then tree_depth else max_depth
  getVoxelsRecurs resolution md root 0 (tree_center resolution)

/-- A childless node (an unexpanded coarse leaf), used as a concrete tree. -/
def nodeLeaf : ONode := ONode.mk fun _ => none

/-- A node whose only child is octant 0, used as a concrete tree. -/
def nodeChild0 : ONode := ONode.mk fun j => if j = 0 then some nodeLeaf else none

/-- The number of octants `0..7` of a node that do not exist. -/
def missingCount (n : ONode) : Nat :=
  ((List.range 8).filter fun i => childExists n i = false).length

/-- Multiplicity of a volume record in an emitted list. -/
noncomputable def countVol (l : List OcTreeVolume) (v : OcTreeVolume) : Nat :=
  (l.filter fun w => w = v).length

/-! ### Basic facts about the codec -/

/-- Any key produced by `genKey` is strictly below `2 * tree_max_val`. -/
theorem genKey_lt_of_some (resolution v : ℝ) (k : Nat)
    (h : genKey resolution v = some k) : k < 2 * tree_max_val := by
  simp only [genKey] at h
  split_ifs at h with hc
  cases h
  have := hc.2
  omega

/-- Claim C1: codec round-trip — for every valid key `k` in
`(0, 2*tree_max_val)`, decoding with `genVal` succeeds and re-encoding the
decoded value with `genKey` returns exactly `k`. -/
theorem genVal_genKey_roundtrip (resolution : ℝ) (k : Nat) (hres : 0 < resolution)
    (hk0 : 0 < k) (hk : k < 2 * tree_max_val) :
    (genVal resolution k 0).1 = true ∧
      genKey resolution (genVal resolution k 0).2 = some k := by
  have hdec : genVal resolution k 0 =
      (true, (((k : ℝ) - (tree_max_val : ℝ)) + 0.5) * resolution) := by
    unfold genVal
    rw [if_neg (by omega)]
  refine ⟨by rw [hdec], ?_⟩
  rw [hdec]
  unfold genKey
  have harg : resolution_factor resolution *
      ((((k : ℝ) - (tree_max_val : ℝ)) + 0.5) * resolution) =
      ((k : ℝ) - (tree_max_val : ℝ)) + 0.5 := by
    unfold resolution_factor
    field_simp
  rw [harg]
  have hfl : ⌊((k : ℝ) - (tree_max_val : ℝ)) + 0.5⌋ = (k : ℤ) - (tree_max_val : ℤ) := by
    apply Int.floor_eq_iff.mpr
    constructor
    · push_cast
      norm_num
    · push_cast
      norm_num
  rw [hfl]
  have hsc : (k : ℤ) - (tree_max_val : ℤ) + (tree_max_val : ℤ) = (k : ℤ) := by ring
  rw [hsc]
  rw [if_pos (by constructor <;> [exact_mod_cast hk0; exact_mod_cast hk])]
  simp

/-- Witness for C1 at `resolution = 1`, `k = 32768`. -/
theorem genVal_genKey_roundtrip_witness :
    (genVal 1 32768 0).1 = true ∧ genKey 1 (genVal 1 32768 0).2 = some 32768 :=
  genVal_genKey_roundtrip 1 32768 (by norm_num) (by norm_num)
    (by norm_num [tree_max_val])

/-! ### The axis selection of the incremental loop -/

/-- Claim C2, counterexample: with `tMax = (5, 5, 7)` — axes 0 and 1 tied at
the smallest value — the loop of `computeRay` advances axis 1, not the
lowest-numbered tied axis 0. -/
theorem selectAxis_tie_counterexample :
    selectAxis 5 5 7 = 1 ∧ selectAxis 5 5 7 ≠ 0 := by
  have h : selectAxis 5 5 7 = 1 := by
    unfold selectAxis
    rw [if_neg (by norm_num), if_pos (by norm_num)]
  exact ⟨h, by rw [h]; decide⟩

/-- Claim C2, amended: in every iteration the axis with the smallest `tMax`
is selected, but ties are broken towards the HIGHEST-numbered tied axis
(priority order 2, 1, 0): axis 0 is selected iff it is strictly smaller
than both others, axis 1 iff it is `≤` axis 0 and strictly smaller than
axis 2, and axis 2 iff it is `≤` both. -/
theorem selectAxis_min_highest_tie (t0 t1 t2 : ℝ) :
    (selectAxis t0 t1 t2 = 0 ↔ t0 < t1 ∧ t0 < t2) ∧
    (selectAxis t0 t1 t2 = 1 ↔ t1 ≤ t0 ∧ t1 < t2) ∧
    (selectAxis t0 t1 t2 = 2 ↔ t2 ≤ t0 ∧ t2 ≤ t1) := by
  unfold selectAxis
  split_ifs with h1 h2 h3
  all_goals
    refine ⟨?_, ?_, ?_⟩ <;> constructor <;> intro h
  all_goals
    first
      | rfl
      | exact absurd h (by decide)
      | exact ⟨by linarith, by linarith⟩
      | (exfalso; rcases h with ⟨ha, hb⟩; linarith)

/-! ### Codec bounds -/

/-- Claim C6: `genKey` computes `scaled = floor(value * resolution_factor) +
tree_max_val`, succeeds with `key = scaled` exactly when
`0 < scaled < 2*tree_max_val`, and fails otherwise; concretely, with
`resolution = 1`, `genKey 0.5 = 32768` and `genVal 32768 = 0.5`. -/
theorem genKey_bounds_spec :
    (∀ resolution v : ℝ, genKey resolution v =
      if 0 < ⌊resolution_factor resolution * v⌋ + 32768 ∧
          ⌊resolution_factor resolution * v⌋ + 32768 < 65536 then
        some (⌊resolution_factor resolution * v⌋ + 32768).toNat
      else none) ∧
    genKey 1 0.5 = some 32768 ∧
    (genVal 1 32768 0).1 = true ∧ (genVal 1 32768 0).2 = 0.5 := by
  refine ⟨fun resolution v => ?_, ?_, ?_, ?_⟩
  · unfold genKey
    norm_num [tree_max_val]
  · unfold genKey
    have h : resolution_factor 1 * (0.5 : ℝ) = 0.5 := by
      unfold resolution_factor
      norm_num
    rw [h]
    have hfl : ⌊(0.5 : ℝ)⌋ = 0 := by
      apply Int.floor_eq_iff.mpr
      constructor <;> norm_num
    rw [hfl]
    norm_num [tree_max_val]
    rfl
  · unfold genVal
    rw [if_neg (by norm_num [tree_max_val])]
  · unfold genVal
    rw [if_neg (by norm_num [tree_max_val])]
    norm_num [tree_max_val]

/-! ### genVal always overwrites its output parameter -/

/-- Claim C10: `genVal` always overwrites the by-reference output: for keys
`≥ 2*tree_max_val` it reports failure with the output left at `0.0`, for
keys `< 2*tree_max_val` it reports success with the voxel center, and in
all cases the result is independent of the caller's prior contents. -/
theorem genVal_overwrites_output :
    (∀ (resolution : ℝ) (key : Nat) (prior : ℝ), 2 * tree_max_val ≤ key →
        genVal resolution key prior = (false, 0)) ∧
    (∀ (resolution : ℝ) (key : Nat) (prior : ℝ), key < 2 * tree_max_val →
        genVal resolution key prior =
          (true, (((key : ℝ) - (tree_max_val : ℝ)) + 0.5) * resolution)) ∧
    (∀ (resolution : ℝ) (key : Nat) (p q : ℝ),
        genVal resolution key p = genVal resolution key q) := by
  refine ⟨fun resolution key prior h => ?_, fun resolution key prior h => ?_,
    fun resolution key p q => ?_⟩
  · unfold genVal
    rw [if_pos h]
  · unfold genVal
    rw [if_neg (by omega)]
  · rfl

/-- Witness for C10 at `key = 70000` (failure, output forced to 0) and
`key = 5` (success), with prior contents `3`. -/
theorem genVal_overwrites_output_witness :
    genVal 1 70000 3 = (false, 0) ∧
      genVal 1 5 3 = (true, (((5 : ℝ) - 32768) + 0.5) * 1) := by
  constructor
  · exact genVal_overwrites_output.1 1 70000 3 (by norm_num [tree_max_val])
  · have h := genVal_overwrites_output.2.1 1 5 3 (by norm_num [tree_max_val])
    rw [h]
    norm_num [tree_max_val]

/-! ### Point lookup -/

/-- A node without children has no existing octant. -/
theorem childExists_false_of_no_children (n : ONode) (pos : Nat)
    (h : hasChildren n = false) : childExists n pos = false := by
  unfold hasChildren at h
  simp only [decide_eq_false_iff_not, not_exists] at h
  unfold childExists
  split_ifs with hp
  · exact Bool.not_eq_true _ ▸ h ⟨pos, hp⟩
  · rfl

/-- Claim C5: the `search` descent — at every level, if the octant child
exists the descent continues into it; if it does not exist and the node is
childless the node itself is returned (coarse-leaf fallback); if it does
not exist but the node has other children, the lookup is absent; and a
tree consisting of a single unexpanded root yields the root for every
in-bounds point. -/
theorem search_descent_spec :
    (∀ (key : Fin 3 → Nat) (cur : ONode) (i : Nat),
        childExists cur (genPos key i) = true →
        searchDescend key (i + 1) cur =
          searchDescend key i (getChild cur (genPos key i))) ∧
    (∀ (key : Fin 3 → Nat) (cur : ONode) (i : Nat),
        childExists cur (genPos key i) = false → hasChildren cur = false →
        searchDescend key (i + 1) cur = some cur) ∧
    (∀ (key : Fin 3 → Nat) (cur : ONode) (i : Nat),
        childExists cur (genPos key i) = false → hasChildren cur = true →
        searchDescend key (i + 1) cur = none) ∧
    (∀ (resolution : ℝ) (root : ONode) (p : point3d),
        hasChildren root = false →
        (∀ i : Fin 3, (genKey resolution (p.nth i)).isSome = true) →
        search resolution root p = some root) := by
  refine ⟨fun key cur i h => ?_, fun key cur i h hnc => ?_,
    fun key cur i h hc => ?_, fun resolution root p hroot hkeys => ?_⟩
  · simp only [searchDescend]
    rw [if_pos h]
  · simp only [searchDescend]
    rw [if_neg (by simp [h]), if_pos hnc]
  · simp only [searchDescend]
    rw [if_neg (by simp [h]), if_neg (by simp [hc])]
  · have h0 := hkeys 0
    have h1 := hkeys 1
    have h2 := hkeys 2
    cases hk0 : genKey resolution (p.nth 0) with
    | none => rw [hk0] at h0; simp at h0
    | some k0 =>
      cases hk1 : genKey resolution (p.nth 1) with
      | none => rw [hk1] at h1; simp at h1
      | some k1 =>
        cases hk2 : genKey resolution (p.nth 2) with
        | none => rw [hk2] at h2; simp at h2
        | some k2 =>
          unfold search
          rw [hk0, hk1, hk2]
          show searchDescend (vec3 k0 k1 k2) 16 root = some root
          rw [show (16 : ℕ) = 15 + 1 from rfl]
          simp only [searchDescend]
          rw [if_neg (by simp [childExists_false_of_no_children _ _ hroot]),
            if_pos hroot]

/-- Witness for C5: descent step with an existing child, coarse-leaf stop,
inconsistent-octant failure, and coarse-root lookup at `(0.5, 0.5, 0.5)`. -/
theorem search_descent_spec_witness :
    searchDescend (vec3 0 0 0) 1 nodeChild0 =
      searchDescend (vec3 0 0 0) 0 (getChild nodeChild0 (genPos (vec3 0 0 0) 0)) ∧
    searchDescend (vec3 0 0 0) 1 nodeLeaf = some nodeLeaf ∧
    searchDescend (vec3 1 1 1) 1 nodeChild0 = none ∧
    search 1 nodeLeaf ⟨0.5, 0.5, 0.5⟩ = some nodeLeaf := by
  refine ⟨?_, ?_, ?_, ?_⟩
  · exact search_descent_spec.1 (vec3 0 0 0) nodeChild0 0 (by decide)
  · exact search_descent_spec.2.1 (vec3 0 0 0) nodeLeaf 0 (by decide) (by decide)
  · exact search_descent_spec.2.2.1 (vec3 1 1 1) nodeChild0 0 (by decide) (by decide)
  · apply search_descent_spec.2.2.2 1 nodeLeaf ⟨0.5, 0.5, 0.5⟩ (by decide)
    intro i
    have hk : genKey 1 (0.5 : ℝ) = some 32768 := by
      unfold genKey
      have h : resolution_factor 1 * (0.5 : ℝ) = 0.5 := by
        unfold resolution_factor
        norm_num
      rw [h]
      have hfl : ⌊(0.5 : ℝ)⌋ = 0 := by
        apply Int.floor_eq_iff.mpr
        constructor <;> norm_num
      rw [hfl]
      norm_num [tree_max_val]
      rfl
    fin_cases i <;> simp [point3d.nth, hk]

/-! ### Degenerate rays -/

/-- Claim C9: whenever origin and end encode to the identical voxel index on
all three axes (in particular for `computeRay p p`), the call succeeds with
an empty sequence, before the incremental loop runs. -/
theorem computeRay_same_cell_empty (resolution : ℝ) (fuel : Nat)
    (origin endp : point3d) (k : Fin 3 → Nat)
    (ho : ∀ i, genKey resolution (origin.nth i) = some (k i))
    (he : ∀ i, genKey resolution (endp.nth i) = some (k i)) :
    computeRay resolution fuel origin endp = some (none, []) := by
  unfold computeRay
  rw [ho 0, he 0, ho 1, he 1, ho 2, he 2]
  simp only []
  rw [if_pos ⟨trivial, trivial, trivial⟩]

/-- Witness for C9: `computeRay p p` at `p = (0.5, 0.5, 0.5)`,
`resolution = 1`, with zero fuel (the loop is never entered). -/
theorem computeRay_same_cell_empty_witness :
    computeRay 1 0 ⟨0.5, 0.5, 0.5⟩ ⟨0.5, 0.5, 0.5⟩ = some (none, []) := by
  have hk : genKey 1 (0.5 : ℝ) = some 32768 := by
    unfold genKey
    have h : resolution_factor 1 * (0.5 : ℝ) = 0.5 := by
      unfold resolution_factor
      norm_num
    have hfl : ⌊(0.5 : ℝ)⌋ = 0 := by
      apply Int.floor_eq_iff.mpr
      constructor <;> norm_num
    rw [h, hfl]
    norm_num [tree_max_val]
    rfl
  apply computeRay_same_cell_empty 1 0 _ _ (fun _ => 32768) <;>
    · intro i
      fin_cases i <;> simpa [point3d.nth] using hk

/-! ### The all-or-nothing contract of computeRay -/

/-- Decoding never fails on a key below `2 * tree_max_val`. -/
theorem genVal_fst_true (resolution : ℝ) (key : Nat) (prior : ℝ)
    (h : key < 2 * tree_max_val) : (genVal resolution key prior).1 = true := by
  unfold genVal
  rw [if_neg (by omega)]

/-- The wrapped advanced index is always inside `[0, 2*tree_max_val)`. -/
theorem wrapped_idx_lt (voxelIdx : Fin 3 → Nat) (step : Fin 3 → ℤ) (ix : Fin 3) :
    ((((voxelIdx ix : ℤ) + step ix) % 65536).toNat) < 2 * tree_max_val := by
  have h1 : 0 ≤ ((voxelIdx ix : ℤ) + step ix) % 65536 :=
    Int.emod_nonneg _ (by norm_num)
  have h2 : ((voxelIdx ix : ℤ) + step ix) % 65536 < 65536 :=
    Int.emod_lt_of_pos _ (by norm_num)
  simp only [tree_max_val]
  omega

/-- The incremental loop never reports an error: the range check on the
wrapped index always passes (the original out-of-bounds failure is dead
code), and decoding always succeeds on in-range indices. -/
theorem rayLoop_no_error (resolution : ℝ) (origin : point3d) (maxLength : ℝ)
    (step : Fin 3 → ℤ) (tDelta : Fin 3 → ℝ) (fuel : Nat) :
    ∀ (voxelIdx : Fin 3 → Nat) (tMax : Fin 3 → ℝ) (ray : List point3d),
      (∀ j, voxelIdx j < 2 * tree_max_val) →
      ∀ (err : RayError) (r2 : List point3d),
        rayLoop resolution origin maxLength step tDelta fuel voxelIdx tMax ray ≠
          some (some err, r2) := by
  induction fuel with
  | zero =>
    intro voxelIdx tMax ray hinv err r2
    simp [rayLoop]
  | succ n ih =>
    intro voxelIdx tMax ray hinv err r2
    have hupd : ∀ j, Function.update voxelIdx
        (selectAxis (tMax 0) (tMax 1) (tMax 2))
        ((((voxelIdx (selectAxis (tMax 0) (tMax 1) (tMax 2)) : ℤ) +
            step (selectAxis (tMax 0) (tMax 1) (tMax 2))) % 65536).toNat) j <
        2 * tree_max_val := by
      intro j
      rw [Function.update_apply]
      split_ifs with hj
      · exact wrapped_idx_lt voxelIdx step _
      · exact hinv j
    simp only [rayLoop]
    split_ifs with h1 h2 h3
    · simp
    · exact ih _ _ _ hupd err r2
    · exfalso
      apply h2
      refine ⟨?_, ?_, ?_⟩ <;> exact genVal_fst_true _ _ _ (hupd _)
    · exfalso
      apply h1
      exact ⟨Int.natCast_nonneg _, wrapped_idx_lt voxelIdx step _⟩

/-- Claim C4: all-or-nothing — whenever `computeRay` fails, the returned
`_ray` vector is empty; no partial sequence is ever handed back. -/
theorem computeRay_fail_empty (resolution : ℝ) (fuel : Nat) (origin endp : point3d)
    (err : RayError) (ray : List point3d)
    (h : computeRay resolution fuel origin endp = some (some err, ray)) :
    ray = [] := by
  unfold computeRay at h
  cases hk0 : genKey resolution (origin.nth 0) with
  | none =>
    rw [hk0] at h
    simp only [Option.some.injEq, Prod.mk.injEq] at h
    exact h.2.symm
  | some v0 =>
  cases hk1 : genKey resolution (endp.nth 0) with
  | none =>
    rw [hk0, hk1] at h
    simp only [Option.some.injEq, Prod.mk.injEq] at h
    exact h.2.symm
  | some e0 =>
  cases hk2 : genKey resolution (origin.nth 1) with
  | none =>
    rw [hk0, hk1, hk2] at h
    simp only [Option.some.injEq, Prod.mk.injEq] at h
    exact h.2.symm
  | some v1 =>
  cases hk3 : genKey resolution (endp.nth 1) with
  | none =>
    rw [hk0, hk1, hk2, hk3] at h
    simp only [Option.some.injEq, Prod.mk.injEq] at h
    exact h.2.symm
  | some e1 =>
  cases hk4 : genKey resolution (origin.nth 2) with
  | none =>
    rw [hk0, hk1, hk2, hk3, hk4] at h
    simp only [Option.some.injEq, Prod.mk.injEq] at h
    exact h.2.symm
  | some v2 =>
  cases hk5 : genKey resolution (endp.nth 2) with
  | none =>
    rw [hk0, hk1, hk2, hk3, hk4, hk5] at h
    simp only [Option.some.injEq, Prod.mk.injEq] at h
    exact h.2.symm
  | some e2 =>
    rw [hk0, hk1, hk2, hk3, hk4, hk5] at h
    simp only [] at h
    split_ifs at h with hsame
    · simp at h
    · exfalso
      have hinv : ∀ j, vec3 v0 v1 v2 j < 2 * tree_max_val := by
        intro j
        fin_cases j
        · simpa [vec3] using genKey_lt_of_some _ _ _ hk0
        · simpa [vec3] using genKey_lt_of_some _ _ _ hk2
        · simpa [vec3] using genKey_lt_of_some _ _ _ hk4
      exact rayLoop_no_error _ _ _ _ _ fuel _ _ [] hinv err ray h

/-- Witness for C4: a failing call (origin out of bounds on axis 0) whose
returned vector is empty. -/
theorem computeRay_fail_empty_witness :
    computeRay 1 1 ⟨70000, 0.5, 0.5⟩ ⟨0.5, 0.5, 0.5⟩ =
      some (some (RayError.originOOB 0), []) ∧ ([] : List point3d) = [] := by
  have hk : genKey 1 (70000 : ℝ) = none := by
    unfold genKey
    have h : resolution_factor 1 * (70000 : ℝ) = 70000 := by
      unfold resolution_factor
      norm_num
    have hfl : ⌊(70000 : ℝ)⌋ = 70000 := by
      apply Int.floor_eq_iff.mpr
      constructor <;> norm_num
    rw [h, hfl]
    rw [if_neg (by norm_num [tree_max_val])]
  have h : computeRay 1 1 ⟨70000, 0.5, 0.5⟩ ⟨0.5, 0.5, 0.5⟩ =
      some (some (RayError.originOOB 0), []) := by
    unfold computeRay
    have hnth : (point3d.nth ⟨70000, 0.5, 0.5⟩ 0) = (70000 : ℝ) := rfl
    rw [hnth, hk]
  exact ⟨h, computeRay_fail_empty 1 1 _ _ _ _ h⟩

/-! ### Voxel enumeration -/

/-- Filtering a `flatMap` counts per generated sublist. -/
theorem length_filter_flatMap {α β : Type} (q : β → Bool) (f : α → List β) :
    ∀ l : List α, ((l.flatMap f).filter q).length =
      (l.map fun a => ((f a).filter q).length).sum := by
  intro l
  induction l with
  | nil => simp
  | cons a t ih => simp [List.filter_append, ih]

/-- A sum of 0/1 indicators is a filtered length. -/
theorem sum_indicator_eq_length_filter {α : Type} (q : α → Bool) :
    ∀ l : List α, (l.map fun a => if q a then 1 else 0).sum = (l.filter q).length := by
  intro l
  induction l with
  | nil => simp
  | cons a t ih => by_cases h : q a <;> simp [h, ih, Nat.add_comm]

/-- Congruence for sums of mapped lists. -/
theorem sum_map_congr {α : Type} (f g : α → Nat) :
    ∀ l : List α, (∀ a ∈ l, f a = g a) → (l.map f).sum = (l.map g).sum := by
  intro l
  induction l with
  | nil => intro _; rfl
  | cons a t ih =>
    intro h
    simp only [List.map_cons, List.sum_cons, h a (by simp),
      ih fun b hb => h b (by simp [hb])]

/-- Volume multiplicity distributes over `flatMap`. -/
theorem countVol_flatMap (f : Nat → List OcTreeVolume) (v : OcTreeVolume)
    (l : List Nat) :
    countVol (l.flatMap f) v = (l.map fun i => countVol (f i) v).sum := by
  unfold countVol
  exact length_filter_flatMap _ f l

/-- A list without the record has multiplicity 0. -/
theorem countVol_eq_zero (l : List OcTreeVolume) (v : OcTreeVolume)
    (h : ∀ w ∈ l, w ≠ v) : countVol l v = 0 := by
  unfold countVol
  have : l.filter (fun w => w = v) = [] := by
    rw [List.filter_eq_nil_iff]
    intro w hw
    simpa using h w hw
  rw [this]
  rfl

/-- A singleton of the record has multiplicity 1. -/
theorem countVol_singleton_self (v : OcTreeVolume) : countVol [v] v = 1 := by
  unfold countVol
  simp

/-- `missingCount` as a sum of per-octant indicators. -/
theorem missingCount_eq_sum (n : ONode) :
    missingCount n =
      ((List.range 8).map fun i => if childExists n i = true then 0 else 1).sum := by
  unfold missingCount
  rw [← sum_indicator_eq_length_filter]
  apply sum_map_congr
  intro i _
  by_cases h : childExists n i = true
  · simp [h]
  · have h2 : childExists n i = false := by
      cases hc : childExists n i
      · rfl
      · exact absurd hc h
    simp [h2]

/-- Unfolding `getVoxelsRecurs` at an internal node strictly above the
cutoff. -/
theorem getVoxelsRecurs_internal_eq (resolution : ℝ) (max_depth : Nat)
    (node : ONode) (depth : Nat) (c : point3d)
    (hch : hasChildren node = true) (hd : depth < max_depth) :
    getVoxelsRecurs resolution max_depth node depth c =
      (List.range 8).flatMap fun i =>
        if childExists node i then
          getVoxelsRecurs resolution max_depth (getChild node i) (depth + 1)
            (childCenter resolution c depth i)
        else
          [(psub c (tree_center resolution), voxelSize resolution depth)] := by
  rw [getVoxelsRecurs]
  rw [dif_pos (by omega), dif_pos ⟨hch, by omega⟩]

/-- Every record emitted below a node at `depth` carries the voxel size of
some level in `[depth, max_depth)`. -/
theorem getVoxelsRecurs_size_mem (resolution : ℝ) (max_depth : Nat) (k : Nat) :
    ∀ (depth : Nat) (node : ONode) (c : point3d) (v : OcTreeVolume),
      max_depth - depth ≤ k →
      v ∈ getVoxelsRecurs resolution max_depth node depth c →
      ∃ e, depth ≤ e ∧ e < max_depth ∧ v.2 = voxelSize resolution e := by
  induction k with
  | zero =>
    intro depth node c v hk hv
    rw [getVoxelsRecurs] at hv
    split_ifs at hv with h1 h2
    · exact absurd h2.2 (by omega)
    · simp at hv
    · simp at hv
  | succ n ih =>
    intro depth node c v hk hv
    rw [getVoxelsRecurs] at hv
    split_ifs at hv with h1 h2
    · simp only [List.mem_flatMap, List.mem_range] at hv
      obtain ⟨i, hi, hmem⟩ := hv
      by_cases hc : childExists node i = true
      · rw [if_pos hc] at hmem
        obtain ⟨e, he1, he2, he3⟩ := ih (depth + 1) _ _ v (by omega) hmem
        exact ⟨e, by omega, he2, he3⟩
      · rw [if_neg hc] at hmem
        simp only [List.mem_singleton] at hmem
        exact ⟨depth, le_refl _, by omega, by rw [hmem]⟩
    · simp at hv
    · simp at hv

/-- Voxel sizes at distinct levels above the finest differ. -/
theorem voxelSize_ne (resolution : ℝ) (hres : 0 < resolution) (d e : Nat)
    (hd : d < tree_depth) (hde : d < e) :
    voxelSize resolution e ≠ voxelSize resolution d := by
  unfold voxelSize
  have hexp : tree_depth - e < tree_depth - d := by
    simp only [tree_depth] at *
    omega
  have h2 : (2 : ℝ) ^ (tree_depth - e) < 2 ^ (tree_depth - d) :=
    pow_lt_pow_right₀ one_lt_two hexp
  exact ne_of_lt (mul_lt_mul_of_pos_left h2 hres)

/-- Claim C8: at every internal node strictly above the cutoff,
`getVoxelsRecurs` recurses into each existing octant and emits exactly one
record per missing octant, carrying the node's own relative center
`(node center - tree center)` and edge length
`resolution * 2^(tree_depth - depth)`; and no record is ever emitted for a
node at `depth = tree_depth`. -/
theorem getVoxels_missing_octants :
    (∀ (resolution : ℝ) (max_depth : Nat) (node : ONode) (depth : Nat) (c : point3d),
        hasChildren node = true → depth < max_depth →
        getVoxelsRecurs resolution max_depth node depth c =
          (List.range 8).flatMap fun i =>
            if childExists node i then
              getVoxelsRecurs resolution max_depth (getChild node i) (depth + 1)
                (childCenter resolution c depth i)
            else
              [(psub c (tree_center resolution), voxelSize resolution depth)]) ∧
    (∀ (resolution : ℝ) (max_depth : Nat) (node : ONode) (depth : Nat) (c : point3d),
        hasChildren node = true → depth < max_depth → max_depth ≤ tree_depth →
        0 < resolution →
        countVol (getVoxelsRecurs resolution max_depth node depth c)
          (psub c (tree_center resolution), voxelSize resolution depth) =
          missingCount node) ∧
    (∀ (resolution : ℝ) (max_depth : Nat) (node : ONode) (c : point3d),
        max_depth ≤ tree_depth →
        getVoxelsRecurs resolution max_depth node tree_depth c = []) := by
  refine ⟨fun resolution max_depth node depth c hch hd =>
      getVoxelsRecurs_internal_eq resolution max_depth node depth c hch hd,
    fun resolution max_depth node depth c hch hd hmd hres => ?_,
    fun resolution max_depth node c hmd => ?_⟩
  · rw [getVoxelsRecurs_internal_eq resolution max_depth node depth c hch hd]
    rw [countVol_flatMap, missingCount_eq_sum]
    apply sum_map_congr
    intro i _
    by_cases hc : childExists node i = true
    · rw [if_pos hc, if_pos hc]
      apply countVol_eq_zero
      intro w hw
      obtain ⟨e, he1, he2, he3⟩ :=
        getVoxelsRecurs_size_mem resolution max_depth (max_depth - (depth + 1))
          (depth + 1) _ _ w (le_refl _) hw
      intro hweq
      have hsz : w.2 = voxelSize resolution depth := by rw [hweq]
      rw [he3] at hsz
      exact voxelSize_ne resolution hres depth e
        (by simp only [tree_depth] at *; omega) (by omega) hsz
    · rw [if_neg hc, if_neg hc]
      exact countVol_singleton_self _
  · rw [getVoxelsRecurs]
    split_ifs with h1 h2
    · exact absurd h2.2 (by omega)
    · rfl
    · rfl

/-- Witness for C8: a root with a single child (octant 0) at depth 0 emits
exactly `missingCount = 7` records of its own volume, and a node queried at
the finest depth emits nothing. -/
theorem getVoxels_missing_octants_witness :
    countVol (getVoxelsRecurs 1 16 nodeChild0 0 (tree_center 1))
      (psub (tree_center 1) (tree_center 1), voxelSize 1 0) = missingCount nodeChild0 ∧
    getVoxelsRecurs 1 16 nodeLeaf tree_depth (tree_center 1) = [] :=
  ⟨getVoxels_missing_octants.2.1 1 16 nodeChild0 0 (tree_center 1) (by decide)
      (by norm_num) (by norm_num [tree_depth]) (by norm_num),
   getVoxels_missing_octants.2.2 1 16 nodeLeaf (tree_center 1)
      (by norm_num [tree_depth])⟩

/-! ### Concrete runs of the incremental loop -/

/-- Fin 3 literal disequalities, for reducing array accesses. -/
theorem fin3_eq_10 : ((1 : Fin 3) = 0) = False := eq_false (by decide)

/-- Fin 3 literal disequalities, for reducing array accesses. -/
theorem fin3_eq_20 : ((2 : Fin 3) = 0) = False := eq_false (by decide)

/-- Fin 3 literal disequalities, for reducing array accesses. -/
theorem fin3_eq_21 : ((2 : Fin 3) = 1) = False := eq_false (by decide)

/-- Fin 3 literal disequalities, for reducing array accesses. -/
theorem fin3_eq_01 : ((0 : Fin 3) = 1) = False := eq_false (by decide)

/-- Fin 3 literal disequalities, for reducing array accesses. -/
theorem fin3_eq_02 : ((0 : Fin 3) = 2) = False := eq_false (by decide)

/-- Fin 3 literal disequalities, for reducing array accesses. -/
theorem fin3_eq_12 : ((1 : Fin 3) = 2) = False := eq_false (by decide)

/-- Evaluation rule for `genKey` at a concrete coordinate. -/
theorem genKey_eval (resolution v r : ℝ) (m : ℤ)
    (hr : resolution_factor resolution * v = r)
    (h1 : (m : ℝ) ≤ r) (h2 : r < (m : ℝ) + 1)
    (h3 : 0 < m + 32768) (h4 : m + 32768 < 65536) :
    genKey resolution v = some (m + 32768).toNat := by
  unfold genKey
  have hfl : ⌊resolution_factor resolution * v⌋ = m := by
    rw [hr]
    exact Int.floor_eq_iff.mpr ⟨h1, h2⟩
  rw [hfl]
  have htv : (tree_max_val : ℤ) = 32768 := by norm_num [tree_max_val]
  rw [htv]
  rw [if_pos ⟨h3, by omega⟩]

/-- The norm of an x-axis-aligned vector. -/
theorem norm2_x_abs (a : ℝ) : norm2 ⟨a, 0, 0⟩ = |a| := by
  unfold norm2
  rw [show a ^ 2 + (0 : ℝ) ^ 2 + (0 : ℝ) ^ 2 = a ^ 2 by ring]
  exact Real.sqrt_sq_eq_abs a

/-- One iteration of the incremental loop that pushes a point. -/
theorem rayLoop_step_push (resolution : ℝ) (origin : point3d) (maxLength : ℝ)
    (step : Fin 3 → ℤ) (tDelta : Fin 3 → ℝ) (fuel : Nat) (voxelIdx : Fin 3 → Nat)
    (tMax : Fin 3 → ℝ) (ray : List point3d)
    (i : Fin 3) (hi : selectAxis (tMax 0) (tMax 1) (tMax 2) = i)
    (newIdx : Nat) (hn : (((voxelIdx i : ℤ) + step i) % 65536).toNat = newIdx)
    (value : point3d)
    (hv : value =
      ⟨(genVal resolution (Function.update voxelIdx i newIdx 0) 0).2,
       (genVal resolution (Function.update voxelIdx i newIdx 1) 0).2,
       (genVal resolution (Function.update voxelIdx i newIdx 2) 0).2⟩)
    (hnb : newIdx < 2 * tree_max_val)
    (hgv : ∀ j, (genVal resolution (Function.update voxelIdx i newIdx j) 0).1 = true)
    (hdist : ¬ norm2 (psub value origin) > maxLength) :
    rayLoop resolution origin maxLength step tDelta (fuel + 1) voxelIdx tMax ray =
      rayLoop resolution origin maxLength step tDelta fuel
        (Function.update voxelIdx i newIdx)
        (Function.update tMax i (tMax i + tDelta i)) (ray ++ [value]) := by
  simp only [rayLoop]
  rw [hi, hn]
  rw [if_pos ⟨Int.natCast_nonneg _, hnb⟩]
  rw [if_pos ⟨hgv 0, hgv 1, hgv 2⟩]
  rw [← hv]
  rw [if_neg hdist]

/-- One iteration of the incremental loop that stops ("reached endpoint"). -/
theorem rayLoop_step_done (resolution : ℝ) (origin : point3d) (maxLength : ℝ)
    (step : Fin 3 → ℤ) (tDelta : Fin 3 → ℝ) (fuel : Nat) (voxelIdx : Fin 3 → Nat)
    (tMax : Fin 3 → ℝ) (ray : List point3d)
    (i : Fin 3) (hi : selectAxis (tMax 0) (tMax 1) (tMax 2) = i)
    (newIdx : Nat) (hn : (((voxelIdx i : ℤ) + step i) % 65536).toNat = newIdx)
    (value : point3d)
    (hv : value =
      ⟨(genVal resolution (Function.update voxelIdx i newIdx 0) 0).2,
       (genVal resolution (Function.update voxelIdx i newIdx 1) 0).2,
       (genVal resolution (Function.update voxelIdx i newIdx 2) 0).2⟩)
    (hnb : newIdx < 2 * tree_max_val)
    (hgv : ∀ j, (genVal resolution (Function.update voxelIdx i newIdx j) 0).1 = true)
    (hdist : norm2 (psub value origin) > maxLength) :
    rayLoop resolution origin maxLength step tDelta (fuel + 1) voxelIdx tMax ray =
      some (none, ray) := by
  simp only [rayLoop]
  rw [hi, hn]
  rw [if_pos ⟨Int.natCast_nonneg _, hnb⟩]
  rw [if_pos ⟨hgv 0, hgv 1, hgv 2⟩]
  rw [← hv]
  rw [if_pos hdist]

set_option maxHeartbeats 1000000 in
/-- Claim C3, behavior at the failing input (resolution 1, origin
`(32766.5, 0.5, 0.5)`, end `(32767.5, 0.5, 0.5)`): after pushing the cell
at x-index 65535, the walk advances the x index by +1; the advanced index
65536 leaves `[0, 2*tree_max_val)`, so by the claim the whole call must
fail — but the `unsigned short` increment wraps to 0, the range check
compares the wrapped value (it can never fail), the wrapped decoded point
lies 65534 units behind the origin and merely terminates the walk, and the
call returns SUCCESS with the accumulated ray. -/
theorem computeRay_boundary_wrap_bug :
    computeRay 1 5 ⟨65533 / 2, 1 / 2, 1 / 2⟩ ⟨65535 / 2, 1 / 2, 1 / 2⟩ =
      some (none, [⟨65535 / 2, 1 / 2, 1 / 2⟩]) := by
  have hko : genKey 1 ((65533 : ℝ) / 2) = some 65534 := by
    have h := genKey_eval 1 (65533 / 2) (65533 / 2) 32766
      (by unfold resolution_factor; norm_num) (by norm_num) (by norm_num)
      (by norm_num) (by norm_num)
    simpa using h
  have hke : genKey 1 ((65535 : ℝ) / 2) = some 65535 := by
    have h := genKey_eval 1 (65535 / 2) (65535 / 2) 32767
      (by unfold resolution_factor; norm_num) (by norm_num) (by norm_num)
      (by norm_num) (by norm_num)
    simpa using h
  have hkh : genKey 1 ((1 : ℝ) / 2) = some 32768 := by
    have h := genKey_eval 1 (1 / 2) (1 / 2) 0
      (by unfold resolution_factor; norm_num) (by norm_num) (by norm_num)
      (by norm_num) (by norm_num)
    simpa using h
  norm_num [computeRay, point3d.nth, psub, unit, norm2_x_abs, hko, hke, hkh,
    fin3_eq_10, fin3_eq_20, fin3_eq_21, fin3_eq_01, fin3_eq_02, fin3_eq_12]
  rw [if_neg (by norm_num [vec3])]
  rw [show (5 : ℕ) = 4 + 1 from rfl]
  refine Eq.trans (rayLoop_step_push _ _ _ _ _ _ _ _ _ 0 ?_ 65535 ?_
    ⟨65535 / 2, 1 / 2, 1 / 2⟩ ?_ ?_ ?_ ?_) ?_
  · norm_num [selectAxis, tMaxInit, stepOf, tree_max_val, vec3,
      fin3_eq_10, fin3_eq_20, fin3_eq_21, fin3_eq_01, fin3_eq_02, fin3_eq_12]
  · norm_num [stepOf, vec3,
      fin3_eq_10, fin3_eq_20, fin3_eq_21, fin3_eq_01, fin3_eq_02, fin3_eq_12]
    rfl
  · norm_num [genVal, Function.update_apply, vec3, tree_max_val,
      fin3_eq_10, fin3_eq_20, fin3_eq_21, fin3_eq_01, fin3_eq_02, fin3_eq_12]
  · norm_num [tree_max_val]
  · intro j
    apply genVal_fst_true
    simp only [Function.update_apply, vec3]
    split_ifs <;> norm_num [tree_max_val]
  · norm_num [psub, norm2_x_abs]
  rw [show (4 : ℕ) = 3 + 1 from rfl]
  refine Eq.trans (rayLoop_step_done _ _ _ _ _ _ _ _ _ 0 ?_ 0 ?_
    ⟨-(65535 / 2), 1 / 2, 1 / 2⟩ ?_ ?_ ?_ ?_) ?_
  · norm_num [selectAxis, tMaxInit, tDeltaInit, stepOf, tree_max_val, vec3,
      Function.update_apply,
      fin3_eq_10, fin3_eq_20, fin3_eq_21, fin3_eq_01, fin3_eq_02, fin3_eq_12]
  · norm_num [stepOf, vec3, Function.update_apply,
      fin3_eq_10, fin3_eq_20, fin3_eq_21, fin3_eq_01, fin3_eq_02, fin3_eq_12]
  · norm_num [genVal, Function.update_apply, vec3, tree_max_val,
      fin3_eq_10, fin3_eq_20, fin3_eq_21, fin3_eq_01, fin3_eq_02, fin3_eq_12]
  · norm_num [tree_max_val]
  · intro j
    apply genVal_fst_true
    simp only [Function.update_apply, vec3]
    split_ifs <;> norm_num [tree_max_val]
  · norm_num [psub, norm2_x_abs]
  norm_num


set_option maxHeartbeats 4000000 in
/-- Claim C7, behavior at the failing input (resolution 10^7, origin
`(4e6, 5e6, 5e6)`, end `(1.4e7, 5e6, 5e6)`): the initial x `tMax` (6e6)
exceeds the `1e6` sentinel of the zero-direction y and z axes, so the loop
repeatedly "advances" y and z with step 0, pushing the SAME voxel center
`(5e6, 5e6, 5e6)` twelve times before x finally advances and the walk
stops: the call succeeds, and the distances of the returned points are not
strictly increasing (they are all equal). -/
theorem computeRay_nonmonotone_bug :
    computeRay 10000000 20 ⟨4000000, 5000000, 5000000⟩ ⟨14000000, 5000000, 5000000⟩ =
      some (none, List.replicate 12 (⟨5000000, 5000000, 5000000⟩ : point3d)) ∧
    ¬ List.Chain'
      (fun a b => norm2 (psub a ⟨4000000, 5000000, 5000000⟩) <
        norm2 (psub b ⟨4000000, 5000000, 5000000⟩))
      (List.replicate 12 (⟨5000000, 5000000, 5000000⟩ : point3d)) := by
  constructor
  · have hko : genKey 10000000 ((4000000 : ℝ)) = some 32768 := by
      have h := genKey_eval 10000000 4000000 (2 / 5) 0
        (by unfold resolution_factor; norm_num) (by norm_num) (by norm_num)
        (by norm_num) (by norm_num)
      simpa using h
    have hkm : genKey 10000000 ((5000000 : ℝ)) = some 32768 := by
      have h := genKey_eval 10000000 5000000 (1 / 2) 0
        (by unfold resolution_factor; norm_num) (by norm_num) (by norm_num)
        (by norm_num) (by norm_num)
      simpa using h
    have hke : genKey 10000000 ((14000000 : ℝ)) = some 32769 := by
      have h := genKey_eval 10000000 14000000 (7 / 5) 1
        (by unfold resolution_factor; norm_num) (by norm_num) (by norm_num)
        (by norm_num) (by norm_num)
      simpa using h
    norm_num [computeRay, point3d.nth, psub, unit, norm2_x_abs, hko, hkm, hke,
      fin3_eq_10, fin3_eq_20, fin3_eq_21, fin3_eq_01, fin3_eq_02, fin3_eq_12]
    rw [if_neg (by norm_num [vec3])]
    rw [show (20 : ℕ) = 19 + 1 from rfl]
    refine Eq.trans (rayLoop_step_push _ _ _ _ _ _ _ _ _ 2 ?_ 32768 ?_
      ⟨5000000, 5000000, 5000000⟩ ?_ ?_ ?_ ?_) ?_
    · norm_num [selectAxis, tMaxInit, tDeltaInit, stepOf, tree_max_val, vec3,
        Function.update_apply, fin3_eq_10, fin3_eq_20, fin3_eq_21, fin3_eq_01, fin3_eq_02, fin3_eq_12]
    · norm_num [stepOf, vec3, Function.update_apply, fin3_eq_10, fin3_eq_20, fin3_eq_21, fin3_eq_01, fin3_eq_02, fin3_eq_12]
      rfl
    · norm_num [genVal, Function.update_apply, vec3, tree_max_val, fin3_eq_10, fin3_eq_20, fin3_eq_21, fin3_eq_01, fin3_eq_02, fin3_eq_12]
    · norm_num [tree_max_val]
    · intro j
      apply genVal_fst_true
      simp only [Function.update_apply, vec3]
      split_ifs <;> norm_num [tree_max_val]
    · norm_num [psub, norm2_x_abs]
    rw [show (19 : ℕ) = 18 + 1 from rfl]
    refine Eq.trans (rayLoop_step_push _ _ _ _ _ _ _ _ _ 1 ?_ 32768 ?_
      ⟨5000000, 5000000, 5000000⟩ ?_ ?_ ?_ ?_) ?_
    · norm_num [selectAxis, tMaxInit, tDeltaInit, stepOf, tree_max_val, vec3,
        Function.update_apply, fin3_eq_10, fin3_eq_20, fin3_eq_21, fin3_eq_01, fin3_eq_02, fin3_eq_12]
    · norm_num [stepOf, vec3, Function.update_apply, fin3_eq_10, fin3_eq_20, fin3_eq_21, fin3_eq_01, fin3_eq_02, fin3_eq_12]
      rfl
    · norm_num [genVal, Function.update_apply, vec3, tree_max_val, fin3_eq_10, fin3_eq_20, fin3_eq_21, fin3_eq_01, fin3_eq_02, fin3_eq_12]
    · norm_num [tree_max_val]
    · intro j
      apply genVal_fst_true
      simp only [Function.update_apply, vec3]
      split_ifs <;> norm_num [tree_max_val]
    · norm_num [psub, norm2_x_abs]
    rw [show (18 : ℕ) = 17 + 1 from rfl]
    refine Eq.trans (rayLoop_step_push _ _ _ _ _ _ _ _ _ 2 ?_ 32768 ?_
      ⟨5000000, 5000000, 5000000⟩ ?_ ?_ ?_ ?_) ?_
    · norm_num [selectAxis, tMaxInit, tDeltaInit, stepOf, tree_max_val, vec3,
        Function.update_apply, fin3_eq_10, fin3_eq_20, fin3_eq_21, fin3_eq_01, fin3_eq_02, fin3_eq_12]
    · norm_num [stepOf, vec3, Function.update_apply, fin3_eq_10, fin3_eq_20, fin3_eq_21, fin3_eq_01, fin3_eq_02, fin3_eq_12]
      rfl
    · norm_num [genVal, Function.update_apply, vec3, tree_max_val, fin3_eq_10, fin3_eq_20, fin3_eq_21, fin3_eq_01, fin3_eq_02, fin3_eq_12]
    · norm_num [tree_max_val]
    · intro j
      apply genVal_fst_true
      simp only [Function.update_apply, vec3]
      split_ifs <;> norm_num [tree_max_val]
    · norm_num [psub, norm2_x_abs]
    rw [show (17 : ℕ) = 16 + 1 from rfl]
    refine Eq.trans (rayLoop_step_push _ _ _ _ _ _ _ _ _ 1 ?_ 32768 ?_
      ⟨5000000, 5000000, 5000000⟩ ?_ ?_ ?_ ?_) ?_
    · norm_num [selectAxis, tMaxInit, tDeltaInit, stepOf, tree_max_val, vec3,
        Function.update_apply, fin3_eq_10, fin3_eq_20, fin3_eq_21, fin3_eq_01, fin3_eq_02, fin3_eq_12]
    · norm_num [stepOf, vec3, Function.update_apply, fin3_eq_10, fin3_eq_20, fin3_eq_21, fin3_eq_01, fin3_eq_02, fin3_eq_12]
      rfl
    · norm_num [genVal, Function.update_apply, vec3, tree_max_val, fin3_eq_10, fin3_eq_20, fin3_eq_21, fin3_eq_01, fin3_eq_02, fin3_eq_12]
    · norm_num [tree_max_val]
    · intro j
      apply genVal_fst_true
      simp only [Function.update_apply, vec3]
      split_ifs <;> norm_num [tree_max_val]
    · norm_num [psub, norm2_x_abs]
    rw [show (16 : ℕ) = 15 + 1 from rfl]
    refine Eq.trans (rayLoop_step_push _ _ _ _ _ _ _ _ _ 2 ?_ 32768 ?_
      ⟨5000000, 5000000, 5000000⟩ ?_ ?_ ?_ ?_) ?_
    · norm_num [selectAxis, tMaxInit, tDeltaInit, stepOf, tree_max_val, vec3,
        Function.update_apply, fin3_eq_10, fin3_eq_20, fin3_eq_21, fin3_eq_01, fin3_eq_02, fin3_eq_12]
    · norm_num [stepOf, vec3, Function.update_apply, fin3_eq_10, fin3_eq_20, fin3_eq_21, fin3_eq_01, fin3_eq_02, fin3_eq_12]
      rfl
    · norm_num [genVal, Function.update_apply, vec3, tree_max_val, fin3_eq_10, fin3_eq_20, fin3_eq_21, fin3_eq_01, fin3_eq_02, fin3_eq_12]
    · norm_num [tree_max_val]
    · intro j
      apply genVal_fst_true
      simp only [Function.update_apply, vec3]
      split_ifs <;> norm_num [tree_max_val]
    · norm_num [psub, norm2_x_abs]
    rw [show (15 : ℕ) = 14 + 1 from rfl]
    refine Eq.trans (rayLoop_step_push _ _ _ _ _ _ _ _ _ 1 ?_ 32768 ?_
      ⟨5000000, 5000000, 5000000⟩ ?_ ?_ ?_ ?_) ?_
    · norm_num [selectAxis, tMaxInit, tDeltaInit, stepOf, tree_max_val, vec3,
        Function.update_apply, fin3_eq_10, fin3_eq_20, fin3_eq_21, fin3_eq_01, fin3_eq_02, fin3_eq_12]
    · norm_num [stepOf, vec3, Function.update_apply, fin3_eq_10, fin3_eq_20, fin3_eq_21, fin3_eq_01, fin3_eq_02, fin3_eq_12]
      rfl
    · norm_num [genVal, Function.update_apply, vec3, tree_max_val, fin3_eq_10, fin3_eq_20, fin3_eq_21, fin3_eq_01, fin3_eq_02, fin3_eq_12]
    · norm_num [tree_max_val]
    · intro j
      apply genVal_fst_true
      simp only [Function.update_apply, vec3]
      split_ifs <;> norm_num [tree_max_val]
    · norm_num [psub, norm2_x_abs]
    rw [show (14 : ℕ) = 13 + 1 from rfl]
    refine Eq.trans (rayLoop_step_push _ _ _ _ _ _ _ _ _ 2 ?_ 32768 ?_
      ⟨5000000, 5000000, 5000000⟩ ?_ ?_ ?_ ?_) ?_
    · norm_num [selectAxis, tMaxInit, tDeltaInit, stepOf, tree_max_val, vec3,
        Function.update_apply, fin3_eq_10, fin3_eq_20, fin3_eq_21, fin3_eq_01, fin3_eq_02, fin3_eq_12]
    · norm_num [stepOf, vec3, Function.update_apply, fin3_eq_10, fin3_eq_20, fin3_eq_21, fin3_eq_01, fin3_eq_02, fin3_eq_12]
      rfl
    · norm_num [genVal, Function.update_apply, vec3, tree_max_val, fin3_eq_10, fin3_eq_20, fin3_eq_21, fin3_eq_01, fin3_eq_02, fin3_eq_12]
    · norm_num [tree_max_val]
    · intro j
      apply genVal_fst_true
      simp only [Function.update_apply, vec3]
      split_ifs <;> norm_num [tree_max_val]
    · norm_num [psub, norm2_x_abs]
    rw [show (13 : ℕ) = 12 + 1 from rfl]
    refine Eq.trans (rayLoop_step_push _ _ _ _ _ _ _ _ _ 1 ?_ 32768 ?_
      ⟨5000000, 5000000, 5000000⟩ ?_ ?_ ?_ ?_) ?_
    · norm_num [selectAxis, tMaxInit, tDeltaInit, stepOf, tree_max_val, vec3,
        Function.update_apply, fin3_eq_10, fin3_eq_20, fin3_eq_21, fin3_eq_01, fin3_eq_02, fin3_eq_12]
    · norm_num [stepOf, vec3, Function.update_apply, fin3_eq_10, fin3_eq_20, fin3_eq_21, fin3_eq_01, fin3_eq_02, fin3_eq_12]
      rfl
    · norm_num [genVal, Function.update_apply, vec3, tree_max_val, fin3_eq_10, fin3_eq_20, fin3_eq_21, fin3_eq_01, fin3_eq_02, fin3_eq_12]
    · norm_num [tree_max_val]
    · intro j
      apply genVal_fst_true
      simp only [Function.update_apply, vec3]
      split_ifs <;> norm_num [tree_max_val]
    · norm_num [psub, norm2_x_abs]
    rw [show (12 : ℕ) = 11 + 1 from rfl]
    refine Eq.trans (rayLoop_step_push _ _ _ _ _ _ _ _ _ 2 ?_ 32768 ?_
      ⟨5000000, 5000000, 5000000⟩ ?_ ?_ ?_ ?_) ?_
    · norm_num [selectAxis, tMaxInit, tDeltaInit, stepOf, tree_max_val, vec3,
        Function.update_apply, fin3_eq_10, fin3_eq_20, fin3_eq_21, fin3_eq_01, fin3_eq_02, fin3_eq_12]
    · norm_num [stepOf, vec3, Function.update_apply, fin3_eq_10, fin3_eq_20, fin3_eq_21, fin3_eq_01, fin3_eq_02, fin3_eq_12]
      rfl
    · norm_num [genVal, Function.update_apply, vec3, tree_max_val, fin3_eq_10, fin3_eq_20, fin3_eq_21, fin3_eq_01, fin3_eq_02, fin3_eq_12]
    · norm_num [tree_max_val]
    · intro j
      apply genVal_fst_true
      simp only [Function.update_apply, vec3]
      split_ifs <;> norm_num [tree_max_val]
    · norm_num [psub, norm2_x_abs]
    rw [show (11 : ℕ) = 10 + 1 from rfl]
    refine Eq.trans (rayLoop_step_push _ _ _ _ _ _ _ _ _ 1 ?_ 32768 ?_
      ⟨5000000, 5000000, 5000000⟩ ?_ ?_ ?_ ?_) ?_
    · norm_num [selectAxis, tMaxInit, tDeltaInit, stepOf, tree_max_val, vec3,
        Function.update_apply, fin3_eq_10, fin3_eq_20, fin3_eq_21, fin3_eq_01, fin3_eq_02, fin3_eq_12]
    · norm_num [stepOf, vec3, Function.update_apply, fin3_eq_10, fin3_eq_20, fin3_eq_21, fin3_eq_01, fin3_eq_02, fin3_eq_12]
      rfl
    · norm_num [genVal, Function.update_apply, vec3, tree_max_val, fin3_eq_10, fin3_eq_20, fin3_eq_21, fin3_eq_01, fin3_eq_02, fin3_eq_12]
    · norm_num [tree_max_val]
    · intro j
      apply genVal_fst_true
      simp only [Function.update_apply, vec3]
      split_ifs <;> norm_num [tree_max_val]
    · norm_num [psub, norm2_x_abs]
    rw [show (10 : ℕ) = 9 + 1 from rfl]
    refine Eq.trans (rayLoop_step_push _ _ _ _ _ _ _ _ _ 2 ?_ 32768 ?_
      ⟨5000000, 5000000, 5000000⟩ ?_ ?_ ?_ ?_) ?_
    · norm_num [selectAxis, tMaxInit, tDeltaInit, stepOf, tree_max_val, vec3,
        Function.update_apply, fin3_eq_10, fin3_eq_20, fin3_eq_21, fin3_eq_01, fin3_eq_02, fin3_eq_12]
    · norm_num [stepOf, vec3, Function.update_apply, fin3_eq_10, fin3_eq_20, fin3_eq_21, fin3_eq_01, fin3_eq_02, fin3_eq_12]
      rfl
    · norm_num [genVal, Function.update_apply, vec3, tree_max_val, fin3_eq_10, fin3_eq_20, fin3_eq_21, fin3_eq_01, fin3_eq_02, fin3_eq_12]
    · norm_num [tree_max_val]
    · intro j
      apply genVal_fst_true
      simp only [Function.update_apply, vec3]
      split_ifs <;> norm_num [tree_max_val]
    · norm_num [psub, norm2_x_abs]
    rw [show (9 : ℕ) = 8 + 1 from rfl]
    refine Eq.trans (rayLoop_step_push _ _ _ _ _ _ _ _ _ 1 ?_ 32768 ?_
      ⟨5000000, 5000000, 5000000⟩ ?_ ?_ ?_ ?_) ?_
    · norm_num [selectAxis, tMaxInit, tDeltaInit, stepOf, tree_max_val, vec3,
        Function.update_apply, fin3_eq_10, fin3_eq_20, fin3_eq_21, fin3_eq_01, fin3_eq_02, fin3_eq_12]
    · norm_num [stepOf, vec3, Function.update_apply, fin3_eq_10, fin3_eq_20, fin3_eq_21, fin3_eq_01, fin3_eq_02, fin3_eq_12]
      rfl
    · norm_num [genVal, Function.update_apply, vec3, tree_max_val, fin3_eq_10, fin3_eq_20, fin3_eq_21, fin3_eq_01, fin3_eq_02, fin3_eq_12]
    · norm_num [tree_max_val]
    · intro j
      apply genVal_fst_true
      simp only [Function.update_apply, vec3]
      split_ifs <;> norm_num [tree_max_val]
    · norm_num [psub, norm2_x_abs]
    rw [show (8 : ℕ) = 7 + 1 from rfl]
    refine Eq.trans (rayLoop_step_done _ _ _ _ _ _ _ _ _ 0 ?_ 32769 ?_
      ⟨15000000, 5000000, 5000000⟩ ?_ ?_ ?_ ?_) ?_
    · norm_num [selectAxis, tMaxInit, tDeltaInit, stepOf, tree_max_val, vec3,
        Function.update_apply, fin3_eq_10, fin3_eq_20, fin3_eq_21, fin3_eq_01, fin3_eq_02, fin3_eq_12]
    · norm_num [stepOf, vec3, Function.update_apply, fin3_eq_10, fin3_eq_20, fin3_eq_21, fin3_eq_01, fin3_eq_02, fin3_eq_12]
      rfl
    · norm_num [genVal, Function.update_apply, vec3, tree_max_val, fin3_eq_10, fin3_eq_20, fin3_eq_21, fin3_eq_01, fin3_eq_02, fin3_eq_12]
    · norm_num [tree_max_val]
    · intro j
      apply genVal_fst_true
      simp only [Function.update_apply, vec3]
      split_ifs <;> norm_num [tree_max_val]
    · norm_num [psub, norm2_x_abs]
    simp [List.replicate]
  · simp [List.replicate, List.chain'_cons, lt_self_iff_false]
